import Mathlib

/-!
Verification of the daily-stock-picks repository.

The development shallowly embeds the two source files:
  * `src/scanner.py`            — namespace `Scanner`
  * `src/scripts/update_picks.py` — namespace `UpdatePicks`

Prices and volumes are modelled as rationals.  Where the Python code can
produce IEEE-754 non-finite values (division by zero on numpy scalars
yields `inf`/`-inf`/`nan` rather than raising), values are modelled by
`PyFloat`: a finite rational or one of the three non-finite classes,
with IEEE-754 arithmetic and comparison rules (any comparison against
NaN is false).
-/

/-- An IEEE-754 style value: a finite rational, `+inf`, `-inf` or `NaN`. -/
inductive PyFloat where
  | fin (q : ℚ)
  | inf
  | ninf
  | nan
deriving DecidableEq, Repr

namespace PyFloat

/-- Division of two finite values, following IEEE-754: a zero denominator
yields `±inf` for a nonzero numerator and `NaN` for `0/0`. -/
def divQ (a b : ℚ) : PyFloat :=
  if b ≠ 0 then fin (a / b)
  else if 0 < a then inf
  else if a < 0 then ninf
  else nan

/-- IEEE-754 addition. -/
def add : PyFloat → PyFloat → PyFloat
  | nan, _ => nan
  | _, nan => nan
  | fin a, fin b => fin (a + b)
  | fin _, inf => inf
  | inf, fin _ => inf
  | inf, inf => inf
  | fin _, ninf => ninf
  | ninf, fin _ => ninf
  | ninf, ninf => ninf
  | inf, ninf => nan
  | ninf, inf => nan

/-- IEEE-754 negation. -/
def neg : PyFloat → PyFloat
  | nan => nan
  | fin a => fin (-a)
  | inf => ninf
  | ninf => inf

/-- IEEE-754 subtraction. -/
def sub (x y : PyFloat) : PyFloat := add x (neg y)

/-- IEEE-754 division. -/
def div : PyFloat → PyFloat → PyFloat
  | nan, _ => nan
  | _, nan => nan
  | fin a, fin b => divQ a b
  | fin _, inf => fin 0
  | fin _, ninf => fin 0
  | inf, fin b => if 0 ≤ b then inf else ninf
  | ninf, fin b => if 0 ≤ b then ninf else inf
  | inf, inf => nan
  | inf, ninf => nan
  | ninf, inf => nan
  | ninf, ninf => nan

/-- Multiplication by a finite constant. -/
def mulQ : PyFloat → ℚ → PyFloat
  | nan, _ => nan
  | fin a, c => fin (a * c)
  | inf, c => if 0 < c then inf else if c < 0 then ninf else nan
  | ninf, c => if 0 < c then ninf else if c < 0 then inf else nan

/-- IEEE-754 strict order: any comparison involving `NaN` is false. -/
def lt : PyFloat → PyFloat → Bool
  | nan, _ => false
  | _, nan => false
  | fin a, fin b => a < b
  | fin _, inf => true
  | ninf, fin _ => true
  | ninf, inf => true
  | _, _ => false

/-- `x < c` for a finite rational bound `c`. -/
def ltQ (x : PyFloat) (c : ℚ) : Bool := lt x (fin c)

/-- `x > c` for a finite rational bound `c`. -/
def gtQ (x : PyFloat) (c : ℚ) : Bool := lt (fin c) x

/-- Is the value a finite rational? -/
def isFinite : PyFloat → Bool
  | fin _ => true
  | _ => false

end PyFloat

/-- One OHLCV bar (the `Open` column is never read by the code). -/
structure Bar where
  close : ℚ
  high : ℚ
  low : ℚ
  volume : ℚ
deriving DecidableEq, Repr

/-- `l.tail(n)` / the trailing `rolling(n)` window: the last `n` elements. -/
def lastN (n : ℕ) (l : List α) : List α := l.drop (l.length - n)

/-- Arithmetic mean `Series.mean()` (only ever applied to nonempty lists). -/
def mean (l : List ℚ) : ℚ := l.sum / l.length

/-- `Series.max()` over a nonempty list. -/
def maxQ : List ℚ → ℚ
  | [] => 0
  | x :: xs => xs.foldl max x

/-- `Series.min()` over a nonempty list. -/
def minQ : List ℚ → ℚ
  | [] => 0
  | x :: xs => xs.foldl min x

/-- `Series.diff()`: consecutive differences (the leading NaN is kept out;
see `maskedDeltas` for the full masked column). -/
def deltas (closes : List ℚ) : List ℚ :=
  List.zipWith (fun a b => a - b) (closes.drop 1) closes

/-- The `diff()` column after `.where(cond, 0)`: the leading NaN entry is
replaced by 0 because `NaN > 0` and `NaN < 0` are both false. -/
def maskedDeltas (closes : List ℚ) : List ℚ :=
  match closes with
  | [] => []
  | _ :: _ => 0 :: deltas closes

/-- `delta.where(delta > 0, 0)`. -/
def gainPart (d : ℚ) : ℚ := if 0 < d then d else 0

/-- `-delta.where(delta < 0, 0)`. -/
def lossPart (d : ℚ) : ℚ := -(if d < 0 then d else 0)

/-- Trailing 14-window mean gain (last value of the `gain` rolling column). -/
def gain14 (closes : List ℚ) : ℚ := mean (lastN 14 ((maskedDeltas closes).map gainPart))

/-- Trailing 14-window mean loss (last value of the `loss` rolling column). -/
def loss14 (closes : List ℚ) : ℚ := mean (lastN 14 ((maskedDeltas closes).map lossPart))

/-- Round-half-to-even on integers, as Python's `round`. -/
def rndHalfEven (q : ℚ) : ℤ :=
  let f := ⌊q⌋
  let r := q - f
  if r < 1 / 2 then f
  else if 1 / 2 < r then f + 1
  else if f % 2 = 0 then f else f + 1

/-- Python `round(q, d)` on a finite value. -/
def roundQ (q : ℚ) (d : ℕ) : ℚ := (rndHalfEven (q * 10 ^ d) : ℚ) / 10 ^ d

/-- Python `round(x, d)`: non-finite values are returned unchanged. -/
def PyFloat.roundTo : PyFloat → ℕ → PyFloat
  | .fin q, d => .fin (roundQ q d)
  | x, _ => x

/-- Python `int(q)` (truncation toward zero). -/
def pyInt (q : ℚ) : ℤ := if 0 ≤ q then ⌊q⌋ else -⌊-q⌋

namespace Scanner

/-- `calculate_rsi` from `src/scanner.py`, last value of the RSI column:
`rs = gain / (loss + 1e-9)` (epsilon guard), `RSI = 100 - 100/(1+rs)`.
The rolling windows are defined once 14 entries of the masked delta
column exist; earlier positions are NaN. -/
def calculate_rsi (closes : List ℚ) : PyFloat :=
  if closes.length < 14 then .nan
  else .fin (100 - 100 / (1 + gain14 closes / (loss14 closes + 1 / 10 ^ 9)))

/-- One entry of the `all_results` list built by `scan`. -/
structure Pick where
  ticker : String
  price : ℚ
  score : ℕ
  reason : String
  rsi : PyFloat
deriving DecidableEq, Repr

/-- The per-ticker body of the loop in `scan` (`src/scanner.py` lines 35-83):
skip when fewer than 50 bars, otherwise compute RSI / SMA20 / SMA50 /
average volume, score the four signals, and admit the ticker only when
`score > 0`. -/
def processTicker (ticker : String) (bars : List Bar) : Option Pick :=
  if bars.length < 50 then none
  else
    let closes := bars.map Bar.close
    let volumes := bars.map Bar.volume
    let rsiLast := calculate_rsi closes
    let sma20Last := mean (lastN 20 closes)
    let sma50Last := mean (lastN 50 closes)
    let sma20Prev := mean (lastN 20 closes.dropLast)
    let avg_vol := mean (lastN 20 volumes)
    let lastClose := closes.getLastD 0
    let prevClose := closes.dropLast.getLastD 0
    let lastVol := volumes.getLastD 0
    let s1 : ℕ := if PyFloat.ltQ rsiLast 40 then 1 else 0
    let r1 : List String := if PyFloat.ltQ rsiLast 40 then ["Oversold"] else []
    let s2 : ℕ := if lastClose > sma20Last ∧ prevClose < sma20Prev then 2 else 0
    let r2 : List String :=
      if lastClose > sma20Last ∧ prevClose < sma20Prev then ["Trend Breakout"] else []
    let s3 : ℕ := if lastVol > avg_vol * (13 / 10) then 1 else 0
    let r3 : List String := if lastVol > avg_vol * (13 / 10) then ["Volume Spike"] else []
    let s4 : ℕ := if lastClose > sma20Last ∧ sma20Last > sma50Last then 1 else 0
    let r4 : List String :=
      if lastClose > sma20Last ∧ sma20Last > sma50Last then ["Bullish Trend"] else []
    let score := s1 + s2 + s3 + s4
    let reasons := r1 ++ r2 ++ r3 ++ r4
    if score > 0 then
      some { ticker := ticker
             price := roundQ lastClose 2
             score := score
             reason := String.intercalate ", " reasons
             rsi := rsiLast.roundTo 1 }
    else none

/-- The pick-list computation of `scan` (`src/scanner.py` lines 33-87):
collect the admitted per-ticker results, stable-sort by score descending
(Python `sorted(..., reverse=True)`), and keep the top 15. -/
def scan (inputs : List (String × List Bar)) : List Pick :=
  let all_results := inputs.filterMap fun p => processTicker p.1 p.2
  (all_results.mergeSort fun a b => decide (b.score ≤ a.score)).take 15

end Scanner

namespace UpdatePicks

/-- `calculate_rsi` from `src/scripts/update_picks.py` (returns `rsi.iloc[-1]`):
identical to the scanner variant except that `rs = gain / loss` has **no**
epsilon guard, so a zero mean loss follows IEEE division (`inf` when the
mean gain is positive, `NaN` when it is zero too). -/
def calculate_rsi (closes : List ℚ) : PyFloat :=
  if closes.length < 14 then .nan
  else
    let rs := PyFloat.divQ (gain14 closes) (loss14 closes)
    PyFloat.sub (.fin 100) (PyFloat.div (.fin 100) (PyFloat.add (.fin 1) rs))

/-- `Series.ewm(span, adjust=False).mean()` tail after the seed: each output
is `(1-α)·prev + α·x` with `α = 2/(span+1)`. -/
def ewmAux (a : ℚ) (prev : ℚ) : List ℚ → List ℚ
  | [] => []
  | x :: xs => ((1 - a) * prev + a * x) :: ewmAux a ((1 - a) * prev + a * x) xs

/-- `Series.ewm(span=sp, adjust=False).mean()`: seeded from the first value. -/
def ewm (sp : ℚ) (xs : List ℚ) : List ℚ :=
  match xs with
  | [] => []
  | x :: rest => x :: ewmAux (2 / (sp + 1)) x rest

/-- The MACD column of `calculate_macd`: `EMA(12) - EMA(26)` pointwise. -/
def macdList (closes : List ℚ) : List ℚ :=
  List.zipWith (fun a b => a - b) (ewm 12 closes) (ewm 26 closes)

/-- `calculate_macd` from `src/scripts/update_picks.py`: the last MACD value
and the last value of its 9-span EWM signal line. -/
def calculate_macd (closes : List ℚ) : ℚ × ℚ :=
  ((macdList closes).getLastD 0, (ewm 9 (macdList closes)).getLastD 0)

/-- `get_moving_averages`: last values of the 50- and 200-bar SMAs. -/
def get_moving_averages (closes : List ℚ) : ℚ × ℚ :=
  (mean (lastN 50 closes), mean (lastN 200 closes))

/-- The record (Python dict) returned by `analyze_stock`.  `pattern` models
the optional `'pattern'` key added later by `detect_parabolic_moves`
(`none` = key absent); dict equality makes a tagged copy unequal to the
original. -/
structure StockRecord where
  ticker : String
  price : ℚ
  rsi : PyFloat
  macd : ℚ
  macd_signal : ℚ
  ma50 : ℚ
  ma200 : ℚ
  volume : ℤ
  volume_ratio : PyFloat
  support : ℚ
  resistance : ℚ
  range_position : PyFloat
  pd_position : PyFloat
  equilibrium : ℚ
  rating : String
  bias : String
  bullish_score : ℕ
  bearish_score : ℕ
  high_52w : ℚ
  low_52w : ℚ
  pattern : Option String := none
deriving DecidableEq, Repr

/-- The bias-scoring block of `analyze_stock` (lines 96-127): five
independent rules, each crediting at most one of the two accumulators. -/
def scoreStock (rsi : PyFloat) (macd macd_signal current_price ma50 ma200 prevClose : ℚ)
    (volume_ratio pd_position : PyFloat) : ℕ × ℕ :=
  let p1 : ℕ × ℕ :=
    if PyFloat.ltQ rsi 30 then (3, 0)
    else if PyFloat.gtQ rsi 70 then (0, 3) else (0, 0)
  let p2 : ℕ × ℕ := if macd > macd_signal then (2, 0) else (0, 2)
  let p3 : ℕ × ℕ :=
    if current_price > ma50 ∧ ma50 > ma200 then (2, 0)
    else if current_price < ma50 ∧ ma50 < ma200 then (0, 2) else (0, 0)
  let p4 : ℕ × ℕ :=
    if PyFloat.gtQ volume_ratio (3 / 2) then
      ((if current_price > prevClose then 1 else 0),
       (if current_price < prevClose then 1 else 0))
    else (0, 0)
  let p5 : ℕ × ℕ :=
    if PyFloat.ltQ pd_position (-30) then (2, 0)
    else if PyFloat.gtQ pd_position 70 then (0, 2) else (0, 0)
  (p1.1 + p2.1 + p3.1 + p4.1 + p5.1, p1.2 + p2.2 + p3.2 + p4.2 + p5.2)

/-- The rating/bias derivation of `analyze_stock` (lines 129-138). -/
def ratingOf (bullish_score bearish_score : ℕ) : String × String :=
  if bullish_score > bearish_score + 2 then
    (if bullish_score ≥ 7 then "STRONG BUY" else "BUY", "bullish")
  else if bearish_score > bullish_score + 2 then
    (if bearish_score ≥ 7 then "STRONG PUT" else "PUT", "bearish")
  else ("NEUTRAL", "neutral")

/-- `analyze_stock` from `src/scripts/update_picks.py` (lines 61-165): `none`
when fewer than 200 bars, otherwise the full indicator record.  numpy
scalar division by zero yields non-finite values instead of raising, so a
zero denominator does **not** reach the `except` branch. -/
def analyze_stock (ticker : String) (hist : List Bar) : Option StockRecord :=
  if hist.length < 200 then none
  else
    let closes := hist.map Bar.close
    let current_price := closes.getLastD 0
    let rsi := calculate_rsi closes
    let mm := calculate_macd closes
    let ma := get_moving_averages closes
    let avg_volume := mean (lastN 20 (hist.map Bar.volume))
    let current_volume := (hist.map Bar.volume).getLastD 0
    let volume_ratio := PyFloat.divQ current_volume avg_volume
    let high_52w := maxQ (lastN 252 (hist.map Bar.high))
    let low_52w := minQ (lastN 252 (hist.map Bar.low))
    let range_position :=
      PyFloat.mulQ (PyFloat.divQ (current_price - low_52w) (high_52w - low_52w)) 100
    let recent_high := maxQ (lastN 50 (hist.map Bar.high))
    let recent_low := minQ (lastN 50 (hist.map Bar.low))
    let equilibrium := (recent_high + recent_low) / 2
    let pd_position :=
      PyFloat.mulQ (PyFloat.divQ (current_price - equilibrium) (recent_high - equilibrium)) 100
    let prevClose := closes.dropLast.getLastD 0
    let sc := scoreStock rsi mm.1 mm.2 current_price ma.1 ma.2 prevClose volume_ratio pd_position
    let rb := ratingOf sc.1 sc.2
    some { ticker := ticker
           price := roundQ current_price 2
           rsi := rsi.roundTo 1
           macd := roundQ mm.1 2
           macd_signal := roundQ mm.2 2
           ma50 := roundQ ma.1 2
           ma200 := roundQ ma.2 2
           volume := pyInt (current_volume / 1000000)
           volume_ratio := volume_ratio.roundTo 2
           support := roundQ recent_low 2
           resistance := roundQ recent_high 2
           range_position := range_position.roundTo 1
           pd_position := pd_position.roundTo 1
           equilibrium := roundQ equilibrium 2
           rating := rb.1
           bias := rb.2
           bullish_score := sc.1
           bearish_score := sc.2
           high_52w := roundQ high_52w 2
           low_52w := roundQ low_52w 2
           pattern := none }

/-- `detect_parabolic_moves` (lines 171-188): parabolic tops
(`range_position > 85` and `rsi > 70`) and breakout rockets
(`volume_ratio > 2.0`, `range_position > 70`, `rsi < 75`), each copy
tagged with a `'pattern'` key. -/
def detect_parabolic_moves (results : List StockRecord) :
    List StockRecord × List StockRecord :=
  (results.filterMap fun r =>
     if PyFloat.gtQ r.range_position 85 && PyFloat.gtQ r.rsi 70 then
       some { r with pattern := some "PARABOLIC TOP" }
     else none,
   results.filterMap fun r =>
     if PyFloat.gtQ r.volume_ratio 2 && PyFloat.gtQ r.range_position 70 &&
        PyFloat.ltQ r.rsi 75 then
       some { r with pattern := some "BREAKOUT ROCKET" }
     else none)

/-- The selection logic of `select_top_picks` (lines 202-227), applied to
the already-analyzed `results` list: up to 2 pattern matches first, then
backfill from the matching-bias records sorted by score descending,
excluding records contained in the pattern list (Python `not in`, i.e.
dict equality), finally truncate both lists to 3. -/
def selectFromResults (results : List StockRecord) :
    List StockRecord × List StockRecord :=
  let pr := detect_parabolic_moves results
  let parabolic_tops := pr.1
  let breakout_rockets := pr.2
  let bearish0 := parabolic_tops.take 2
  let bearish_picks :=
    if bearish0.length < 3 then
      bearish0 ++
        (((results.filter fun r =>
             decide (r.bias = "bearish") && !(decide (r ∈ parabolic_tops))).mergeSort
            fun a b => decide (b.bearish_score ≤ a.bearish_score)).take
          (3 - bearish0.length))
    else bearish0
  let bullish0 := breakout_rockets.take 2
  let bullish_picks :=
    if bullish0.length < 3 then
      bullish0 ++
        (((results.filter fun r =>
             decide (r.bias = "bullish") && !(decide (r ∈ breakout_rockets))).mergeSort
            fun a b => decide (b.bullish_score ≤ a.bullish_score)).take
          (3 - bullish0.length))
    else bullish0
  (bullish_picks.take 3, bearish_picks.take 3)

/-- `select_top_picks` (lines 190-227): analyze every ticker of the
universe, drop the `None`s, then select. -/
def select_top_picks (univ : List (String × List Bar)) :
    List StockRecord × List StockRecord :=
  selectFromResults (univ.filterMap fun p => analyze_stock p.1 p.2)

end UpdatePicks

/-- `get_expanded_tickers` from `src/scanner.py` (lines 6-16), as a function
of the two fetched symbol columns: `none` models a failed retrieval (any
exception), and a `none` entry inside a column models a non-string cell
(filtered by `isinstance(t, str)`).  `list(set(...))` is modelled by
`List.dedup` (set membership; CPython's set iteration order is not
observable downstream). -/
def get_expanded_tickers (sp500 nasdaq100 : Option (List (Option String))) :
    List String :=
  match sp500, nasdaq100 with
  | some sp, some nd =>
      (((sp ++ nd).dedup).filterMap id).map fun t =>
        t.map fun c => if c = '.' then '-' else c
  | _, _ =>
      ["AAPL", "MSFT", "TSLA", "NVDA", "AMD", "GOOGL", "AMZN", "META", "NFLX",
       "PLTR", "SQ", "PYPL", "BA", "DIS", "JPM"]

/-- The symbol normalization `t.replace('.', '-')`. -/
def replaceDots (t : String) : String := t.map fun c => if c = '.' then '-' else c

/-! ### Helper lemmas -/

theorem ewmAux_const (a c : ℚ) (n : ℕ) :
    UpdatePicks.ewmAux a c (List.replicate n c) = List.replicate n c := by
  induction n with
  | zero => rfl
  | succ m ih =>
      have hc : (1 - a) * c + a * c = c := by ring
      simp only [List.replicate_succ, UpdatePicks.ewmAux, hc, ih]

theorem ewm_const (sp c : ℚ) (n : ℕ) :
    UpdatePicks.ewm sp (List.replicate n c) = List.replicate n c := by
  cases n with
  | zero => rfl
  | succ m =>
      simp only [List.replicate_succ, UpdatePicks.ewm, ewmAux_const]

theorem zipWith_sub_replicate (n : ℕ) (c : ℚ) :
    List.zipWith (fun a b => a - b) (List.replicate n c) (List.replicate n c) =
      List.replicate n 0 := by
  induction n with
  | zero => rfl
  | succ m ih => simp only [List.replicate_succ, List.zipWith_cons_cons, sub_self, ih]

theorem getLastD_replicate (n : ℕ) (c : ℚ) : (List.replicate n c).getLastD c = c := by
  induction n with
  | zero => rfl
  | succ m ih => simp only [List.replicate_succ, List.getLastD_cons, ih]

/-- **C9.** For every perfectly flat close-price series, the MACD column of
`calculate_macd` — `EMA(12) − EMA(26)`, each seeded from the first value with
`α = 2/(span+1)` — is `0` at every defined position, the `EMA(9)` signal
line of that MACD column is `0` everywhere as well, and `calculate_macd`
returns `(0, 0)`. -/
theorem macd_flat_zero (n : ℕ) (c : ℚ) :
    UpdatePicks.macdList (List.replicate n c) = List.replicate n 0 ∧
    UpdatePicks.ewm 9 (UpdatePicks.macdList (List.replicate n c)) = List.replicate n 0 ∧
    UpdatePicks.calculate_macd (List.replicate n c) = (0, 0) := by
  have hm : UpdatePicks.macdList (List.replicate n c) = List.replicate n 0 := by
    simp only [UpdatePicks.macdList, ewm_const, zipWith_sub_replicate]
  refine ⟨hm, ?_, ?_⟩
  · rw [hm, ewm_const]
  · simp only [UpdatePicks.calculate_macd, hm, ewm_const, getLastD_replicate, Prod.mk.injEq,
      and_self]

/-- **C4.** `analyze_stock` assigns rating `"STRONG BUY"` exactly when
`bullish_score > bearish_score + 2` and `bullish_score ≥ 7`, `"BUY"` when
`bullish_score > bearish_score + 2` and `bullish_score < 7`, symmetrically
`"STRONG PUT"` / `"PUT"` when `bearish_score > bullish_score + 2`, and
`"NEUTRAL"` (bias `"neutral"`) exactly when neither score exceeds the other
by more than 2. -/
theorem rating_thresholds (b r : ℕ) :
    ((UpdatePicks.ratingOf b r).1 = "STRONG BUY" ↔ r + 2 < b ∧ 7 ≤ b) ∧
    ((UpdatePicks.ratingOf b r).1 = "BUY" ↔ r + 2 < b ∧ b < 7) ∧
    ((UpdatePicks.ratingOf b r).1 = "STRONG PUT" ↔ b + 2 < r ∧ 7 ≤ r) ∧
    ((UpdatePicks.ratingOf b r).1 = "PUT" ↔ b + 2 < r ∧ r < 7) ∧
    ((UpdatePicks.ratingOf b r).1 = "NEUTRAL" ↔ b ≤ r + 2 ∧ r ≤ b + 2) ∧
    ((UpdatePicks.ratingOf b r).2 = "neutral" ↔ b ≤ r + 2 ∧ r ≤ b + 2) := by
  unfold UpdatePicks.ratingOf
  split_ifs with h1 h2 h3 h4 <;>
    refine ⟨?_, ?_, ?_, ?_, ?_, ?_⟩ <;> simp <;> omega

/-- **C3.** A ticker whose cleaned series has fewer bars than the variant's
minimum window (fewer than 50 in `scan`, fewer than 200 in `analyze_stock`)
contributes no pick/record: `processTicker` and `analyze_stock` return
`none`, and prepending such a ticker to the scanned inputs leaves the
output of `scan` unchanged (the batch just continues). -/
theorem short_series_skipped (t : String) (bars bars2 : List Bar)
    (h1 : bars.length < 50) (h2 : bars2.length < 200) :
    Scanner.processTicker t bars = none ∧
    UpdatePicks.analyze_stock t bars2 = none ∧
    ∀ rest : List (String × List Bar),
      Scanner.scan ((t, bars) :: rest) = Scanner.scan rest := by
  have hp : Scanner.processTicker t bars = none := by
    rw [Scanner.processTicker, if_pos h1]
  refine ⟨hp, ?_, ?_⟩
  · rw [UpdatePicks.analyze_stock, if_pos h2]
  · intro rest
    simp only [Scanner.scan, List.filterMap_cons, hp]

/-- Witness for `short_series_skipped` at concrete empty series. -/
theorem short_series_skipped_witness :
    Scanner.processTicker "X" [] = none ∧ UpdatePicks.analyze_stock "X" [] = none :=
  ⟨(short_series_skipped "X" [] [] (by decide) (by decide)).1,
   (short_series_skipped "X" [] [] (by decide) (by decide)).2.1⟩

/-- **C8.** When both index retrievals succeed, `get_expanded_tickers`
returns the deduplicated union of the two symbol columns with every `'.'`
replaced by `'-'` (non-string cells dropped); on any failure of either
retrieval it returns exactly the fixed hardcoded fallback list, and a
partial result from the other source is discarded, never merged. -/
theorem tickers_union_or_fallback :
    (∀ sp nd : List (Option String), ∃ l : List String,
        get_expanded_tickers (some sp) (some nd) = l.map replaceDots ∧
        l.Nodup ∧ ∀ t : String, t ∈ l ↔ some t ∈ sp ++ nd) ∧
    (∀ o : Option (List (Option String)),
        get_expanded_tickers none o =
          ["AAPL", "MSFT", "TSLA", "NVDA", "AMD", "GOOGL", "AMZN", "META",
           "NFLX", "PLTR", "SQ", "PYPL", "BA", "DIS", "JPM"] ∧
        get_expanded_tickers o none =
          ["AAPL", "MSFT", "TSLA", "NVDA", "AMD", "GOOGL", "AMZN", "META",
           "NFLX", "PLTR", "SQ", "PYPL", "BA", "DIS", "JPM"]) := by
  constructor
  · intro sp nd
    refine ⟨((sp ++ nd).dedup).filterMap id, rfl, ?_, ?_⟩
    · exact (List.nodup_dedup _).filterMap (by intro a a' b hb hb'; cases a <;> cases a' <;>
        simp_all)
    · intro t
      simp only [List.mem_filterMap, id_eq, List.mem_dedup]
      constructor
      · rintro ⟨a, ha, rfl⟩; exact ha
      · intro h; exact ⟨some t, h, rfl⟩
  · intro o
    cases o <;> exact ⟨rfl, rfl⟩

theorem processTicker_score_pos {t : String} {bars : List Bar} {p : Scanner.Pick}
    (h : Scanner.processTicker t bars = some p) : 0 < p.score := by
  rw [Scanner.processTicker] at h
  dsimp only at h
  repeat' split at h
  all_goals cases h
  all_goals assumption

/-- **C1.** Every run of `scan` emits at most 15 picks, every emitted pick
has `score > 0` (the admission filter), and the emitted list is ordered
non-increasing by score: no adjacent (indeed, no ordered) pair of picks is
increasing in score. -/
theorem scan_emits_top15_sorted_positive (inputs : List (String × List Bar)) :
    (Scanner.scan inputs).length ≤ 15 ∧
    (∀ p ∈ Scanner.scan inputs, 0 < p.score) ∧
    (Scanner.scan inputs).Pairwise (fun a b => b.score ≤ a.score) := by
  refine ⟨?_, ?_, ?_⟩
  · rw [Scanner.scan]
    simp [List.length_take_le]
  · intro p hp
    rw [Scanner.scan] at hp
    have hp' := List.mem_of_mem_take hp
    rw [List.mem_mergeSort, List.mem_filterMap] at hp'
    obtain ⟨a, _, ha⟩ := hp'
    exact processTicker_score_pos ha
  · rw [Scanner.scan]
    have hs :
        (((inputs.filterMap fun p => Scanner.processTicker p.1 p.2).mergeSort
            fun a b => decide (b.score ≤ a.score))).Pairwise
          (fun a b => decide (b.score ≤ a.score)) := by
      apply List.sorted_mergeSort
      · intro a b c hab hbc
        simp only [decide_eq_true_eq] at *
        omega
      · intro a b
        simp only [Bool.or_eq_true, decide_eq_true_eq]
        omega
    exact (List.Pairwise.sublist (List.take_sublist 15 _) hs).imp (by simp)

theorem mean_nonneg_of (l : List ℚ) (h : ∀ x ∈ l, 0 ≤ x) : 0 ≤ mean l := by
  unfold mean
  exact div_nonneg (List.sum_nonneg h) (by positivity)

theorem gain14_nonneg (closes : List ℚ) : 0 ≤ gain14 closes := by
  apply mean_nonneg_of
  intro x hx
  have hx' := List.mem_of_mem_drop hx
  rw [List.mem_map] at hx'
  obtain ⟨d, _, rfl⟩ := hx'
  simp only [gainPart]
  split_ifs with hd
  · exact le_of_lt hd
  · exact le_refl 0

theorem loss14_nonneg (closes : List ℚ) : 0 ≤ loss14 closes := by
  apply mean_nonneg_of
  intro x hx
  have hx' := List.mem_of_mem_drop hx
  rw [List.mem_map] at hx'
  obtain ⟨d, _, rfl⟩ := hx'
  simp only [lossPart]
  split_ifs with hd
  · linarith
  · simp

theorem rsi_val_bounds (r : ℚ) (hr : 0 ≤ r) :
    0 ≤ 100 - 100 / (1 + r) ∧ 100 - 100 / (1 + r) ≤ 100 := by
  have h1 : (0:ℚ) < 1 + r := by linarith
  constructor
  · have h2 : 100 / (1 + r) ≤ 100 := by
      rw [div_le_iff₀ h1]; nlinarith
    linarith
  · have h3 : 0 < 100 / (1 + r) := by positivity
    linarith

theorem zipWith_sub_shift (n : ℕ) (a : ℚ) :
    List.zipWith (fun x y => x - y) (List.replicate n a) (a :: List.replicate n a) =
      List.replicate n 0 := by
  induction n with
  | zero => rfl
  | succ m ih =>
      simp only [List.replicate_succ, List.zipWith_cons_cons, sub_self]
      exact congrArg _ ih

theorem gain_loss_ramp (g : ℚ) (hg : 0 < g) :
    gain14 (0 :: g :: List.replicate 13 g) = g / 14 ∧
    loss14 (0 :: g :: List.replicate 13 g) = 0 := by
  have hdel : deltas (0 :: g :: List.replicate 13 g) = (g - 0) :: List.replicate 13 0 := by
    simp only [deltas, List.drop_succ_cons, List.drop_zero]
    rw [List.zipWith_cons_cons, zipWith_sub_shift 13 g]
  have hmask : maskedDeltas (0 :: g :: List.replicate 13 g) =
      0 :: (g - 0) :: List.replicate 13 0 := by
    simp only [maskedDeltas, hdel]
  constructor
  · have hmap : (maskedDeltas (0 :: g :: List.replicate 13 g)).map gainPart =
        0 :: g :: List.replicate 13 0 := by
      rw [hmask]
      simp only [List.map_cons, List.map_replicate, gainPart, sub_zero, lt_irrefl,
        if_false, if_pos hg, lt_self_iff_false]
    rw [gain14, hmap]
    have hlast : lastN 14 (0 :: g :: List.replicate 13 0) = g :: List.replicate 13 0 := by
      simp [lastN]
    rw [hlast, mean]
    simp [List.sum_replicate]
  · have hmap : (maskedDeltas (0 :: g :: List.replicate 13 g)).map lossPart =
        0 :: 0 :: List.replicate 13 0 := by
      rw [hmask]
      simp only [List.map_cons, List.map_replicate, lossPart, sub_zero, lt_irrefl,
        if_false, lt_self_iff_false, neg_zero]
      rw [if_neg (by linarith : ¬ g < 0)]
      simp
    rw [loss14, hmap]
    have hlast : lastN 14 (0 :: (0:ℚ) :: List.replicate 13 0) = 0 :: List.replicate 13 0 := by
      simp [lastN]
    rw [hlast, mean]
    simp [List.sum_replicate]

theorem pyRsiOf_fin (r : ℚ) (h : (1:ℚ) + r ≠ 0) :
    PyFloat.sub (.fin 100) (PyFloat.div (.fin 100) (PyFloat.add (.fin 1) (.fin r))) =
      .fin (100 - 100 / (1 + r)) := by
  show PyFloat.sub (.fin 100) (PyFloat.divQ 100 (1 + r)) = _
  rw [PyFloat.divQ, if_pos h]
  show PyFloat.fin (100 + -(100 / (1 + r))) = _
  rw [← sub_eq_add_neg]

/-- **C2 (amended).** For every close-price series with at least 14 trailing
deltas: the scanner variant of `calculate_rsi` (epsilon guard
`loss + 1e-9`) always yields a finite RSI in `[0, 100]`, and on a
zero-loss window the guard makes the RSI approach `100` from below as the
mean gain grows (for every bound `B < 100` some all-gain series exceeds
`B`).  The `update_picks` variant has **no** epsilon guard: its RSI is
finite and in `[0, 100]` whenever the mean loss is nonzero, equals `100`
when the loss is zero but the gain positive (IEEE `inf` semantics), and is
`NaN` — not a number in `[0, 100]` — when gain and loss both vanish. -/
theorem rsi_range_and_epsilon_guard :
    (∀ closes : List ℚ, 15 ≤ closes.length →
        (∃ q : ℚ, Scanner.calculate_rsi closes = .fin q ∧ 0 ≤ q ∧ q ≤ 100) ∧
        (loss14 closes ≠ 0 →
          ∃ q : ℚ, UpdatePicks.calculate_rsi closes = .fin q ∧ 0 ≤ q ∧ q ≤ 100) ∧
        (loss14 closes = 0 → gain14 closes ≠ 0 →
          UpdatePicks.calculate_rsi closes = .fin 100) ∧
        (loss14 closes = 0 → gain14 closes = 0 →
          UpdatePicks.calculate_rsi closes = .nan)) ∧
    (∀ B : ℚ, B < 100 → ∃ closes : List ℚ, 15 ≤ closes.length ∧ loss14 closes = 0 ∧
        ∃ q : ℚ, Scanner.calculate_rsi closes = .fin q ∧ B < q ∧ q ≤ 100) := by
  constructor
  · intro closes hlen
    have hlen' : ¬ closes.length < 14 := by omega
    have hg := gain14_nonneg closes
    have hl := loss14_nonneg closes
    refine ⟨?_, ?_, ?_, ?_⟩
    · rw [Scanner.calculate_rsi, if_neg hlen']
      have hr : 0 ≤ gain14 closes / (loss14 closes + 1 / 10 ^ 9) := by positivity
      exact ⟨_, rfl, rsi_val_bounds _ hr⟩
    · intro hln
      have hlpos : 0 < loss14 closes := lt_of_le_of_ne hl (Ne.symm hln)
      have hr : 0 ≤ gain14 closes / loss14 closes := by positivity
      have hne : (1 : ℚ) + gain14 closes / loss14 closes ≠ 0 := by linarith
      rw [UpdatePicks.calculate_rsi, if_neg hlen']
      dsimp only
      rw [PyFloat.divQ, if_pos hln, pyRsiOf_fin _ hne]
      exact ⟨_, rfl, rsi_val_bounds _ hr⟩
    · intro hl0 hgn
      have hgpos : 0 < gain14 closes := lt_of_le_of_ne hg (Ne.symm hgn)
      rw [UpdatePicks.calculate_rsi, if_neg hlen']
      dsimp only
      rw [hl0, PyFloat.divQ, if_neg (by simp), if_pos hgpos]
      show PyFloat.fin (100 + -0) = PyFloat.fin 100
      norm_num
    · intro hl0 hg0
      rw [UpdatePicks.calculate_rsi, if_neg hlen']
      dsimp only
      rw [hl0, hg0, PyFloat.divQ, if_neg (by simp), if_neg (by norm_num),
        if_neg (by norm_num)]
      rfl
  · intro B hB
    set D : ℚ := 100 - B with hDdef
    have hDpos : 0 < D := by rw [hDdef]; linarith
    have hD0 : D ≠ 0 := ne_of_gt hDpos
    set g : ℚ := 14 / D with hgdef
    have hgpos : 0 < g := by rw [hgdef]; positivity
    refine ⟨0 :: g :: List.replicate 13 g, by simp, (gain_loss_ramp g hgpos).2, ?_⟩
    have hlen' : ¬ (0 :: g :: List.replicate 13 g).length < 14 := by simp
    rw [Scanner.calculate_rsi, if_neg hlen', (gain_loss_ramp g hgpos).1,
      (gain_loss_ramp g hgpos).2]
    have hgv : g / 14 / ((0:ℚ) + 1 / 10 ^ 9) = 10 ^ 9 / D := by
      rw [hgdef]
      field_simp
      ring
    rw [hgv]
    have hrpos : (0:ℚ) ≤ 10 ^ 9 / D := by positivity
    refine ⟨_, rfl, ?_, (rsi_val_bounds _ hrpos).2⟩
    have h1 : (0:ℚ) < 1 + 10 ^ 9 / D := by positivity
    have key : 100 / (1 + 10 ^ 9 / D) < D := by
      rw [div_lt_iff₀ h1]
      have hexp : D * (1 + 10 ^ 9 / D) = D + 10 ^ 9 := by field_simp
      rw [hexp]
      linarith
    linarith

/-- **C2 (counterexample).** A perfectly flat series with exactly 14
trailing deltas: the `update_picks` variant of `calculate_rsi` divides
`0/0` with no epsilon guard and returns `NaN`, which is neither in
`[0, 100]` nor an epsilon-guarded value. -/
theorem rsi_no_epsilon_counterexample :
    15 ≤ (List.replicate 15 (100:ℚ)).length ∧
    UpdatePicks.calculate_rsi (List.replicate 15 (100:ℚ)) = PyFloat.nan := by
  constructor
  · simp
  · with_unfolding_all rfl

/-- Witness for `rsi_range_and_epsilon_guard` at a concrete flat series. -/
theorem rsi_range_witness :
    ∃ q : ℚ, Scanner.calculate_rsi (List.replicate 15 (100:ℚ)) = .fin q ∧
      0 ≤ q ∧ q ≤ 100 :=
  (rsi_range_and_epsilon_guard.1 (List.replicate 15 (100:ℚ)) (by simp)).1

/-- **C5 (amended).** The volume rule of `analyze_stock`: when
`volume_ratio > 1.5`, `bullish_score` gains exactly one point if the last
close is strictly greater than the previous close, `bearish_score` gains
exactly one point if it is strictly smaller, and — unlike the claim's
"else +1 bearish" — **no** point is awarded on either side when the two
closes are equal.  A ticker whose `volume_ratio` is not above the 1.5
threshold never accrues the volume bonus. -/
theorem volume_rule_threshold (rsi : PyFloat)
    (macd macd_signal price ma50 ma200 prevClose : ℚ) (pd hi lo : PyFloat)
    (hhi : PyFloat.gtQ hi (3 / 2) = true) (hlo : PyFloat.gtQ lo (3 / 2) = false) :
    (UpdatePicks.scoreStock rsi macd macd_signal price ma50 ma200 prevClose hi pd).1 =
      (UpdatePicks.scoreStock rsi macd macd_signal price ma50 ma200 prevClose lo pd).1 +
        (if prevClose < price then 1 else 0) ∧
    (UpdatePicks.scoreStock rsi macd macd_signal price ma50 ma200 prevClose hi pd).2 =
      (UpdatePicks.scoreStock rsi macd macd_signal price ma50 ma200 prevClose lo pd).2 +
        (if price < prevClose then 1 else 0) := by
  unfold UpdatePicks.scoreStock
  simp only [hhi, hlo]
  split_ifs <;> first
    | exact False.elim (by assumption)
    | decide

/-- **C5 (counterexample).** With `volume_ratio = 2 > 1.5` but the last
close equal to the previous close, the volume rule awards **zero** points
(the scores coincide with the `volume_ratio = 1` run), refuting "exactly
one point is awarded ... else +1 to bearish_score". -/
theorem volume_rule_tie_counterexample :
    PyFloat.gtQ (.fin 2) (3 / 2) = true ∧
    UpdatePicks.scoreStock (.fin 50) 1 0 100 100 100 100 (.fin 2) (.fin 0) =
      UpdatePicks.scoreStock (.fin 50) 1 0 100 100 100 100 (.fin 1) (.fin 0) := by
  with_unfolding_all decide

/-- Witness for `volume_rule_threshold` at concrete inputs. -/
theorem volume_rule_threshold_witness :
    (UpdatePicks.scoreStock (.fin 50) 1 0 101 100 90 100 (.fin 2) (.fin 0)).1 =
      (UpdatePicks.scoreStock (.fin 50) 1 0 101 100 90 100 (.fin 1) (.fin 0)).1 +
        (if (100:ℚ) < 101 then 1 else 0) ∧
    (UpdatePicks.scoreStock (.fin 50) 1 0 101 100 90 100 (.fin 2) (.fin 0)).2 =
      (UpdatePicks.scoreStock (.fin 50) 1 0 101 100 90 100 (.fin 1) (.fin 0)).2 +
        (if (101:ℚ) < 100 then 1 else 0) :=
  volume_rule_threshold (.fin 50) 1 0 101 100 90 100 (.fin 0) (.fin 2) (.fin 1)
    (by with_unfolding_all decide) (by with_unfolding_all decide)

theorem scoreStock_bounds (rsi : PyFloat)
    (macd macd_signal price ma50 ma200 prevClose : ℚ) (vr pd : PyFloat) :
    2 ≤ (UpdatePicks.scoreStock rsi macd macd_signal price ma50 ma200 prevClose vr pd).1 +
        (UpdatePicks.scoreStock rsi macd macd_signal price ma50 ma200 prevClose vr pd).2 ∧
    (UpdatePicks.scoreStock rsi macd macd_signal price ma50 ma200 prevClose vr pd).1 +
        (UpdatePicks.scoreStock rsi macd macd_signal price ma50 ma200 prevClose vr pd).2 ≤ 10 ∧
    ¬((UpdatePicks.scoreStock rsi macd macd_signal price ma50 ma200 prevClose vr pd).1 = 0 ∧
      (UpdatePicks.scoreStock rsi macd macd_signal price ma50 ma200 prevClose vr pd).2 = 0) := by
  unfold UpdatePicks.scoreStock
  dsimp only
  split_ifs <;> first
    | decide
    | (exfalso; linarith)

/-- Record used as the `Option.getD` default below (its scores violate the
bounds, so the statements about `getD` are not vacuously satisfiable). -/
def emptyRecord : UpdatePicks.StockRecord :=
  { ticker := "", price := 0, rsi := .nan, macd := 0, macd_signal := 0, ma50 := 0,
    ma200 := 0, volume := 0, volume_ratio := .nan, support := 0, resistance := 0,
    range_position := .nan, pd_position := .nan, equilibrium := 0, rating := "",
    bias := "", bullish_score := 0, bearish_score := 0, high_52w := 0, low_52w := 0,
    pattern := none }

/-- **C10.** For every ticker for which `analyze_stock` returns a record,
the sum of `bullish_score` and `bearish_score` (natural numbers) lies
between 2 and 10, and the two scores are never both zero — the MACD rule
unconditionally credits one side with 2 points. -/
theorem analyze_scores_bounded (t : String) (bars : List Bar)
    (h : (UpdatePicks.analyze_stock t bars).isSome = true) :
    2 ≤ ((UpdatePicks.analyze_stock t bars).getD emptyRecord).bullish_score +
        ((UpdatePicks.analyze_stock t bars).getD emptyRecord).bearish_score ∧
    ((UpdatePicks.analyze_stock t bars).getD emptyRecord).bullish_score +
        ((UpdatePicks.analyze_stock t bars).getD emptyRecord).bearish_score ≤ 10 ∧
    ¬(((UpdatePicks.analyze_stock t bars).getD emptyRecord).bullish_score = 0 ∧
      ((UpdatePicks.analyze_stock t bars).getD emptyRecord).bearish_score = 0) := by
  by_cases hl : bars.length < 200
  · rw [UpdatePicks.analyze_stock, if_pos hl] at h
    simp at h
  · rw [UpdatePicks.analyze_stock, if_neg hl]
    dsimp only [Option.getD_some]
    exact scoreStock_bounds _ _ _ _ _ _ _ _ _

set_option maxRecDepth 20000 in
/-- Witness for `analyze_scores_bounded` at a concrete 200-bar series. -/
theorem analyze_scores_bounded_witness :
    2 ≤ ((UpdatePicks.analyze_stock "X" (List.replicate 200 ⟨100, 100, 100, 1000000⟩)).getD
          emptyRecord).bullish_score +
        ((UpdatePicks.analyze_stock "X" (List.replicate 200 ⟨100, 100, 100, 1000000⟩)).getD
          emptyRecord).bearish_score ∧
    ((UpdatePicks.analyze_stock "X" (List.replicate 200 ⟨100, 100, 100, 1000000⟩)).getD
          emptyRecord).bullish_score +
        ((UpdatePicks.analyze_stock "X" (List.replicate 200 ⟨100, 100, 100, 1000000⟩)).getD
          emptyRecord).bearish_score ≤ 10 ∧
    ¬(((UpdatePicks.analyze_stock "X" (List.replicate 200 ⟨100, 100, 100, 1000000⟩)).getD
          emptyRecord).bullish_score = 0 ∧
      ((UpdatePicks.analyze_stock "X" (List.replicate 200 ⟨100, 100, 100, 1000000⟩)).getD
          emptyRecord).bearish_score = 0) :=
  analyze_scores_bounded "X" (List.replicate 200 ⟨100, 100, 100, 1000000⟩)
    (by with_unfolding_all decide)

theorem foldl_max_replicate (n : ℕ) (c : ℚ) : (List.replicate n c).foldl max c = c := by
  induction n with
  | zero => rfl
  | succ m ih => simp only [List.replicate_succ, List.foldl_cons, max_self, ih]

theorem foldl_min_replicate (n : ℕ) (c : ℚ) : (List.replicate n c).foldl min c = c := by
  induction n with
  | zero => rfl
  | succ m ih => simp only [List.replicate_succ, List.foldl_cons, min_self, ih]

theorem maxQ_replicate (n : ℕ) (c : ℚ) (h : n ≠ 0) : maxQ (List.replicate n c) = c := by
  cases n with
  | zero => exact absurd rfl h
  | succ m => simp only [List.replicate_succ, maxQ, foldl_max_replicate]

theorem minQ_replicate (n : ℕ) (c : ℚ) (h : n ≠ 0) : minQ (List.replicate n c) = c := by
  cases n with
  | zero => exact absurd rfl h
  | succ m => simp only [List.replicate_succ, minQ, foldl_min_replicate]

theorem divQ_zero_not_finite (a : ℚ) : (PyFloat.divQ a 0).isFinite = false := by
  rw [PyFloat.divQ, if_neg (by simp)]
  split_ifs <;> rfl

theorem mulQ_pos_not_finite (x : PyFloat) (c : ℚ) (hc : 0 < c)
    (h : x.isFinite = false) : (x.mulQ c).isFinite = false := by
  cases x <;> simp_all [PyFloat.mulQ, PyFloat.isFinite, hc]

theorem roundTo_not_finite (x : PyFloat) (d : ℕ)
    (h : x.isFinite = false) : (x.roundTo d).isFinite = false := by
  cases x <;> simp_all [PyFloat.roundTo, PyFloat.isFinite]

/-- **C6 (amended).** `analyze_stock` has **no** zero-denominator guard:
numpy scalar division by zero yields `NaN`/`±inf` rather than raising, so
for a series of at least 200 bars whose 52-week high equals its 52-week
low and whose 50-bar resistance equals the equilibrium, the ticker is
**not** skipped — `analyze_stock` still returns a record, whose
`range_position` and `pd_position` are non-finite. -/
theorem zero_denominator_not_skipped (t : String) (hist : List Bar)
    (h : 200 ≤ hist.length)
    (h1 : maxQ (lastN 252 (hist.map Bar.high)) = minQ (lastN 252 (hist.map Bar.low)))
    (h2 : maxQ (lastN 50 (hist.map Bar.high)) =
      (maxQ (lastN 50 (hist.map Bar.high)) + minQ (lastN 50 (hist.map Bar.low))) / 2) :
    ∃ rec : UpdatePicks.StockRecord, UpdatePicks.analyze_stock t hist = some rec ∧
      rec.range_position.isFinite = false ∧ rec.pd_position.isFinite = false := by
  rw [UpdatePicks.analyze_stock, if_neg (by omega)]
  refine ⟨_, rfl, ?_, ?_⟩
  · dsimp only
    rw [h1, sub_self]
    exact roundTo_not_finite _ 1 (mulQ_pos_not_finite _ 100 (by norm_num)
      (divQ_zero_not_finite _))
  · dsimp only
    rw [sub_eq_zero_of_eq h2]
    exact roundTo_not_finite _ 1 (mulQ_pos_not_finite _ 100 (by norm_num)
      (divQ_zero_not_finite _))

set_option maxRecDepth 40000 in
/-- **C6 (counterexample).** A 252-bar series that is flat at 50, so its
52-week high equals its 52-week low (zero denominator): `analyze_stock`
does **not** skip the ticker — it returns a record (`≠ none`), refuting
the claimed skip. -/
theorem zero_denominator_counterexample :
    maxQ (lastN 252 ((List.replicate 252 (⟨50, 50, 50, 1000⟩ : Bar)).map Bar.high)) =
      minQ (lastN 252 ((List.replicate 252 (⟨50, 50, 50, 1000⟩ : Bar)).map Bar.low)) ∧
    UpdatePicks.analyze_stock "GLD" (List.replicate 252 ⟨50, 50, 50, 1000⟩) ≠ none := by
  constructor
  · simp only [List.map_replicate, lastN, List.length_replicate, List.drop_replicate]
    rw [maxQ_replicate _ _ (by omega), minQ_replicate _ _ (by omega)]
  · with_unfolding_all decide

set_option maxRecDepth 40000 in
/-- Witness for `zero_denominator_not_skipped` at a concrete flat series. -/
theorem zero_denominator_witness :
    ∃ rec : UpdatePicks.StockRecord,
      UpdatePicks.analyze_stock "SLV" (List.replicate 252 ⟨75, 75, 75, 1000⟩) = some rec ∧
      rec.range_position.isFinite = false ∧ rec.pd_position.isFinite = false :=
  zero_denominator_not_skipped "SLV" (List.replicate 252 ⟨75, 75, 75, 1000⟩)
    (by simp)
    (by simp only [List.map_replicate, lastN, List.length_replicate, List.drop_replicate]
        rw [maxQ_replicate _ _ (by omega), minQ_replicate _ _ (by omega)])
    (by simp only [List.map_replicate, lastN, List.length_replicate, List.drop_replicate]
        rw [maxQ_replicate _ _ (by omega), minQ_replicate _ _ (by omega)]
        norm_num)

theorem mem_tops_pattern (results : List UpdatePicks.StockRecord)
    (r : UpdatePicks.StockRecord)
    (h : r ∈ (UpdatePicks.detect_parabolic_moves results).1) :
    r.pattern = some "PARABOLIC TOP" := by
  rw [UpdatePicks.detect_parabolic_moves] at h
  dsimp only at h
  rw [List.mem_filterMap] at h
  obtain ⟨a, _, ha⟩ := h
  split at ha
  · cases ha; rfl
  · exact absurd ha (by simp)

theorem mem_rockets_pattern (results : List UpdatePicks.StockRecord)
    (r : UpdatePicks.StockRecord)
    (h : r ∈ (UpdatePicks.detect_parabolic_moves results).2) :
    r.pattern = some "BREAKOUT ROCKET" := by
  rw [UpdatePicks.detect_parabolic_moves] at h
  dsimp only at h
  rw [List.mem_filterMap] at h
  obtain ⟨a, _, ha⟩ := h
  split at ha
  · cases ha; rfl
  · exact absurd ha (by simp)

/-- **C7 (amended).** `select_top_picks` fills at most **2** (not 3) bearish
slots with the first parabolic-top matches and then backfills to 3 with
the bearish-bias records sorted by `bearish_score` descending; the
"not already selected" exclusion is ineffective, because the
pattern-tagged copies are never equal (as dicts) to the untagged records
in `results`, so the backfill pool is exactly the bias filter — a
bearish-bias parabolic top can therefore appear twice.  Symmetrically for
the bullish side with breakout rockets and `bullish_score`.  Each
returned list has at most 3 entries. -/
theorem select_pattern_slots_and_backfill (results : List UpdatePicks.StockRecord)
    (hp : ∀ r ∈ results, r.pattern = none) :
    (UpdatePicks.selectFromResults results).1.length ≤ 3 ∧
    (UpdatePicks.selectFromResults results).2.length ≤ 3 ∧
    (UpdatePicks.selectFromResults results).2 =
      (UpdatePicks.detect_parabolic_moves results).1.take 2 ++
        (((results.filter fun r => decide (r.bias = "bearish")).mergeSort
            fun a b => decide (b.bearish_score ≤ a.bearish_score)).take
          (3 - ((UpdatePicks.detect_parabolic_moves results).1.take 2).length)) ∧
    (UpdatePicks.selectFromResults results).1 =
      (UpdatePicks.detect_parabolic_moves results).2.take 2 ++
        (((results.filter fun r => decide (r.bias = "bullish")).mergeSort
            fun a b => decide (b.bullish_score ≤ a.bullish_score)).take
          (3 - ((UpdatePicks.detect_parabolic_moves results).2.take 2).length)) := by
  have hfb : (results.filter fun r => decide (r.bias = "bearish") &&
      !(decide (r ∈ (UpdatePicks.detect_parabolic_moves results).1))) =
      results.filter fun r => decide (r.bias = "bearish") := by
    apply List.filter_congr
    intro r hr
    have hnone := hp r hr
    have hnot : ¬ r ∈ (UpdatePicks.detect_parabolic_moves results).1 := by
      intro hmem
      rw [mem_tops_pattern results r hmem] at hnone
      exact Option.noConfusion hnone
    simp [hnot]
  have hfr : (results.filter fun r => decide (r.bias = "bullish") &&
      !(decide (r ∈ (UpdatePicks.detect_parabolic_moves results).2))) =
      results.filter fun r => decide (r.bias = "bullish") := by
    apply List.filter_congr
    intro r hr
    have hnone := hp r hr
    have hnot : ¬ r ∈ (UpdatePicks.detect_parabolic_moves results).2 := by
      intro hmem
      rw [mem_rockets_pattern results r hmem] at hnone
      exact Option.noConfusion hnone
    simp [hnot]
  have hblen : ((UpdatePicks.detect_parabolic_moves results).1.take 2).length < 3 := by
    rw [List.length_take]; omega
  have hrlen : ((UpdatePicks.detect_parabolic_moves results).2.take 2).length < 3 := by
    rw [List.length_take]; omega
  have key : UpdatePicks.selectFromResults results =
      (((UpdatePicks.detect_parabolic_moves results).2.take 2 ++
          (((results.filter fun r => decide (r.bias = "bullish")).mergeSort
              fun a b => decide (b.bullish_score ≤ a.bullish_score)).take
            (3 - ((UpdatePicks.detect_parabolic_moves results).2.take 2).length))).take 3,
       ((UpdatePicks.detect_parabolic_moves results).1.take 2 ++
          (((results.filter fun r => decide (r.bias = "bearish")).mergeSort
              fun a b => decide (b.bearish_score ≤ a.bearish_score)).take
            (3 - ((UpdatePicks.detect_parabolic_moves results).1.take 2).length))).take 3) := by
    rw [UpdatePicks.selectFromResults]
    rw [if_pos hblen, if_pos hrlen, hfb, hfr]
  rw [key]
  refine ⟨?_, ?_, ?_, ?_⟩
  · simp only [List.length_take]; omega
  · simp only [List.length_take]; omega
  · exact List.take_of_length_le (by
      simp only [List.length_append, List.length_take, List.length_mergeSort]; omega)
  · exact List.take_of_length_le (by
      simp only [List.length_append, List.length_take, List.length_mergeSort]; omega)

/-- A record as produced by `analyze_stock` (no `'pattern'` key), with the
fields relevant to detection and selection as parameters. -/
def sampleRec (t : String) (rsi range_position volume_ratio : PyFloat) (bias : String)
    (bullish_score bearish_score : ℕ) : UpdatePicks.StockRecord :=
  { ticker := t, price := 100, rsi := rsi, macd := 0, macd_signal := 0, ma50 := 100,
    ma200 := 100, volume := 1, volume_ratio := volume_ratio, support := 90,
    resistance := 110, range_position := range_position, pd_position := .fin 0,
    equilibrium := 100, rating := "NEUTRAL", bias := bias,
    bullish_score := bullish_score, bearish_score := bearish_score, high_52w := 120,
    low_52w := 80, pattern := none }

/-- **C7 (counterexample).** Three tickers all matching the parabolic-top
pattern (`range_position = 90 > 85`, `rsi = 80 > 70`): the claim's
"fills the 3 bearish slots with parabolic-top pattern matches first"
would select all three, but the code takes only `parabolic_tops[:2]`, so
the bearish list has just 2 entries and a slot stays empty. -/
theorem select_three_tops_counterexample :
    (UpdatePicks.detect_parabolic_moves
      [sampleRec "A" (.fin 80) (.fin 90) (.fin 1) "neutral" 0 3,
       sampleRec "B" (.fin 80) (.fin 90) (.fin 1) "neutral" 0 3,
       sampleRec "C" (.fin 80) (.fin 90) (.fin 1) "neutral" 0 3]).1.length = 3 ∧
    (UpdatePicks.selectFromResults
      [sampleRec "A" (.fin 80) (.fin 90) (.fin 1) "neutral" 0 3,
       sampleRec "B" (.fin 80) (.fin 90) (.fin 1) "neutral" 0 3,
       sampleRec "C" (.fin 80) (.fin 90) (.fin 1) "neutral" 0 3]).2.length = 2 := by
  with_unfolding_all decide

/-- Witness for `select_pattern_slots_and_backfill` at a concrete mixed
results list (one parabolic top, one regular bearish-bias record). -/
theorem select_pattern_slots_witness :
    (UpdatePicks.selectFromResults
        [sampleRec "A" (.fin 80) (.fin 90) (.fin 1) "neutral" 0 3,
         sampleRec "D" (.fin 50) (.fin 50) (.fin 1) "bearish" 1 5]).1.length ≤ 3 ∧
    (UpdatePicks.selectFromResults
        [sampleRec "A" (.fin 80) (.fin 90) (.fin 1) "neutral" 0 3,
         sampleRec "D" (.fin 50) (.fin 50) (.fin 1) "bearish" 1 5]).2.length ≤ 3 ∧
    (UpdatePicks.selectFromResults
        [sampleRec "A" (.fin 80) (.fin 90) (.fin 1) "neutral" 0 3,
         sampleRec "D" (.fin 50) (.fin 50) (.fin 1) "bearish" 1 5]).2 =
      (UpdatePicks.detect_parabolic_moves
          [sampleRec "A" (.fin 80) (.fin 90) (.fin 1) "neutral" 0 3,
           sampleRec "D" (.fin 50) (.fin 50) (.fin 1) "bearish" 1 5]).1.take 2 ++
        ((([sampleRec "A" (.fin 80) (.fin 90) (.fin 1) "neutral" 0 3,
            sampleRec "D" (.fin 50) (.fin 50) (.fin 1) "bearish" 1 5].filter
              fun r => decide (r.bias = "bearish")).mergeSort
            fun a b => decide (b.bearish_score ≤ a.bearish_score)).take
          (3 - ((UpdatePicks.detect_parabolic_moves
              [sampleRec "A" (.fin 80) (.fin 90) (.fin 1) "neutral" 0 3,
               sampleRec "D" (.fin 50) (.fin 50) (.fin 1) "bearish" 1 5]).1.take 2).length)) ∧
    (UpdatePicks.selectFromResults
        [sampleRec "A" (.fin 80) (.fin 90) (.fin 1) "neutral" 0 3,
         sampleRec "D" (.fin 50) (.fin 50) (.fin 1) "bearish" 1 5]).1 =
      (UpdatePicks.detect_parabolic_moves
          [sampleRec "A" (.fin 80) (.fin 90) (.fin 1) "neutral" 0 3,
           sampleRec "D" (.fin 50) (.fin 50) (.fin 1) "bearish" 1 5]).2.take 2 ++
        ((([sampleRec "A" (.fin 80) (.fin 90) (.fin 1) "neutral" 0 3,
            sampleRec "D" (.fin 50) (.fin 50) (.fin 1) "bearish" 1 5].filter
              fun r => decide (r.bias = "bullish")).mergeSort
            fun a b => decide (b.bullish_score ≤ a.bullish_score)).take
          (3 - ((UpdatePicks.detect_parabolic_moves
              [sampleRec "A" (.fin 80) (.fin 90) (.fin 1) "neutral" 0 3,
               sampleRec "D" (.fin 50) (.fin 50) (.fin 1) "bearish" 1 5]).2.take 2).length)) :=
  select_pattern_slots_and_backfill
    [sampleRec "A" (.fin 80) (.fin 90) (.fin 1) "neutral" 0 3,
     sampleRec "D" (.fin 50) (.fin 50) (.fin 1) "bearish" 1 5]
    (by intro r hr; fin_cases hr <;> rfl)
